import Mathlib

/-!
Verification of the Pulse feedback-triage worker (`src/index.ts`).

The triage pipeline is embedded shallowly:
* numbers are modelled as `ℚ` (the source uses JS doubles; all constants
  appearing in the pipeline are small decimal fractions, so exact rational
  arithmetic matches the intended real-number semantics of the spec),
* JS `undefined`-able fields become `Option` types, and the JS coercions
  `x || default`, template-literal stringification and `Math.round` are
  modelled by explicit helper functions,
* the external AI call is modelled by an `InferenceOutcome` parameter that
  enumerates what `analyzeWithAI` can observe: the call throwing, a response
  with no `{...}` substring, a response whose extracted substring fails
  `JSON.parse`, or a successfully parsed object (whose relevant fields are
  recorded after JS `Number(·)` coercion: `none` standing for a missing field
  or one whose coercion yields `NaN`).
-/

/-! ### JS semantics helpers -/

/-- JS `v || d` for an optional numeric value: `undefined`/`NaN` (here `none`)
and `0` are falsy and yield the default. -/
def jsNumOr (v : Option ℚ) (d : ℚ) : ℚ :=
  match v with
  | none => d
  | some q => if q = 0 then d else q

/-- JS `v || d` for an optional string value: `undefined` (here `none`) and the
empty string are falsy and yield the default. -/
def jsStrOr (v : Option String) (d : String) : String :=
  match v with
  | none => d
  | some s => if s = "" then d else s

/-- JS `Math.round`: round half toward positive infinity. -/
def jsRound (q : ℚ) : ℤ := ⌊q + 1/2⌋

/-- JS template-literal stringification of a possibly-`undefined` string. -/
def jsTemplateStr (v : Option String) : String :=
  match v with
  | none => "undefined"
  | some s => s

/-- JS `String.prototype.toLowerCase` (ASCII case folding suffices for the
keyword lists of the heuristic). -/
def strLower (s : String) : String := ⟨s.data.map Char.toLower⟩

/-- Character-list prefix test used to implement substring search. -/
def charsStartWith : List Char → List Char → Bool
  | [], _ => true
  | _ :: _, [] => false
  | a :: as, b :: bs => a == b && charsStartWith as bs

/-- Character-list substring test used to implement substring search. -/
def charsContain (needle : List Char) : List Char → Bool
  | [] => needle.isEmpty
  | b :: bs => charsStartWith needle (b :: bs) || charsContain needle bs

/-- JS `s.includes(pat)`. -/
def strContains (s pat : String) : Bool := charsContain pat.data s.data

/-- JS `text.slice(0, n)` for our ASCII inputs. -/
def strSlice (s : String) (n : ℕ) : String := ⟨s.data.take n⟩

/-! ### Data model (`src/index.ts` interfaces) -/

/-- `interface FeedbackItem` of `src/index.ts`; optional fields are `Option`. -/
structure FeedbackItem where
  id : String
  source : String
  created_at : ℤ
  raw_text : String
  sentiment : Option ℚ := none
  urgency : Option ℚ := none
  category : Option String := none
  cluster_id : Option String := none
deriving DecidableEq

/-- `interface AIAnalysis` of `src/index.ts`. -/
structure AIAnalysis where
  sentiment : ℚ
  urgency : ℚ
  category : String
  summary : String
deriving DecidableEq

/-- `interface ClusterData` of `src/index.ts`.  The `category` field keeps the
`Option` of the incoming items: the source writes `category!`, a TypeScript
non-null assertion that is a no-op at runtime. -/
structure ClusterData where
  id : String
  summary : String
  category : Option String
  avg_sentiment : ℚ
  avg_urgency : ℚ
  count_today : ℕ
  count_7d : ℕ
  trend_score : ℚ
  escalated : ℕ
deriving DecidableEq

/-- The report record built by the `generate-report` workflow step. -/
structure ReportRecord where
  id : String
  created_at : ℤ
  summary : String
  clusters : List ClusterData
  escalatedClusters : List ClusterData
deriving DecidableEq

/-! ### Classifier (`heuristicAnalysis`, `analyzeWithAI`) -/

/-- Sentiment branch of `heuristicAnalysis` (`src/index.ts` lines 560-567). -/
def heuristicSentiment (lower : String) : ℚ :=
  if strContains lower "love" || strContains lower "great" ||
      strContains lower "amazing" || strContains lower "thank" then 0.7
  else if strContains lower "broken" || strContains lower "fail" ||
      strContains lower "error" || strContains lower "bug" then -0.6
  else if strContains lower "outage" || strContains lower "down" ||
      strContains lower "urgent" then -0.9
  else 0

/-- Urgency branch of `heuristicAnalysis` (`src/index.ts` lines 569-576). -/
def heuristicUrgency (lower : String) : ℚ :=
  if strContains lower "outage" || strContains lower "critical" ||
      strContains lower "urgent" || strContains lower "down" then 5
  else if strContains lower "broken" || strContains lower "fail" ||
      strContains lower "error" then 4
  else if strContains lower "feature" || strContains lower "request" ||
      strContains lower "would love" then 2
  else 3

/-- Category branch of `heuristicAnalysis` (`src/index.ts` lines 578-593),
evaluated in the source's fixed order bug, feature, docs, performance,
billing, outage, praise, else other. -/
def heuristicCategory (lower : String) : String :=
  if strContains lower "bug" || strContains lower "error" ||
      strContains lower "broken" || strContains lower "fail" then "bug"
  else if strContains lower "feature" || strContains lower "request" ||
      strContains lower "would love" then "feature"
  else if strContains lower "doc" || strContains lower "example" then "docs"
  else if strContains lower "slow" || strContains lower "performance" ||
      strContains lower "lag" then "performance"
  else if strContains lower "billing" || strContains lower "charge" ||
      strContains lower "payment" then "billing"
  else if strContains lower "outage" || strContains lower "down" ||
      strContains lower "503" then "outage"
  else if strContains lower "love" || strContains lower "great" ||
      strContains lower "amazing" then "praise"
  else "other"

/-- `heuristicAnalysis` of `src/index.ts` (lines 557-601): deterministic
keyword fallback classifier. -/
def heuristicAnalysis (text : String) : AIAnalysis :=
  let lower := strLower text
  { sentiment := heuristicSentiment lower
    urgency := heuristicUrgency lower
    category := heuristicCategory lower
    summary := strSlice text 50 ++ (if text.data.length > 50 then "..." else "") }

/-- The relevant fields of the object produced by `JSON.parse` on the extracted
`{...}` substring, as `analyzeWithAI` observes them.  A numeric field is
`none` when it is missing or JS `Number(·)` coercion of it yields `NaN`;
a string field is `none` when it is missing. -/
structure AIResponse where
  sentiment : Option ℚ := none
  urgency : Option ℚ := none
  category : Option String := none
  summary : Option String := none
deriving DecidableEq

/-- What the `analyzeWithAI` body can observe of the external inference call. -/
inductive InferenceOutcome where
  /-- `env.AI.run` (or anything in the `try` block) threw. -/
  | failure
  /-- the response text had no `/\x7b[\s\S]*\x7d/` match. -/
  | noJsonObject
  /-- `JSON.parse` threw on the extracted substring. -/
  | jsonDecodeError
  /-- `JSON.parse` succeeded, yielding an object with these fields. -/
  | parsed (r : AIResponse)
deriving DecidableEq

/-- `analyzeWithAI` of `src/index.ts` (lines 519-554), with the external call
abstracted into an `InferenceOutcome`.  On a parsed object it clamps
sentiment to `[-1,1]` (after `Number(·) || 0`), rounds-then-clamps urgency to
`[1,5]` (after `Number(·) || 3`) and defaults category/summary with `||`;
on every other outcome it falls back to `heuristicAnalysis`. -/
def analyzeWithAI (outcome : InferenceOutcome) (text : String) : AIAnalysis :=
  match outcome with
  | .parsed r =>
      { sentiment := max (-1) (min 1 (jsNumOr r.sentiment 0))
        urgency := ((max 1 (min 5 (jsRound (jsNumOr r.urgency 3))) : ℤ) : ℚ)
        category := jsStrOr r.category "other"
        summary := jsStrOr r.summary (strSlice text 50) }
  | _ => heuristicAnalysis text

/-! ### Clustering and escalation (`assignCluster`, `calculateEscalationScore`,
workflow step `update-clusters`) -/

/-- `assignCluster` of `src/index.ts` (lines 604-606). -/
def assignCluster (category : String) : String := "cluster-" ++ category

/-- `calculateEscalationScore` of `src/index.ts` (lines 609-611). -/
def calculateEscalationScore (avgUrgency volumeSpike sentimentDrop : ℚ) : ℚ :=
  0.5 * avgUrgency + 0.3 * volumeSpike + 0.2 * sentimentDrop

/-- The `volumeSpike` local of the `update-clusters` step (line 675). -/
def volumeSpikeOf (k : ℕ) : ℚ := if k > 5 then 4 else if k > 2 then 2 else 1

/-- The `sentimentDrop` local of the `update-clusters` step (line 676). -/
def sentimentDropOf (avgSentiment : ℚ) : ℚ :=
  if avgSentiment < -0.5 then 4 else if avgSentiment < 0 then 2 else 0

/-- The `trendScore` local of the `update-clusters` step (line 672). -/
def trendScoreOf (avgUrgency : ℚ) : ℚ :=
  if avgUrgency > 3.5 then 0.3 else if avgUrgency > 2.5 then 0.1 else -0.1

/-- The accumulator step of JS `Set` insertion: keep the element only if it is
not already present. -/
def dedupStep (acc : List (Option String)) (x : Option String) : List (Option String) :=
  if x ∈ acc then acc else acc ++ [x]

/-- JS `[...new Set(xs)]`: deduplication keeping first occurrences in order. -/
def jsSetDedup (xs : List (Option String)) : List (Option String) :=
  xs.foldl dedupStep []

/-- Body of the `update-clusters` loop (`src/index.ts` lines 665-707) for one
category value: filter the matching items, average their sentiment/urgency
(`i.sentiment || 0`, `i.urgency || 0`), derive trend score, volume spike,
sentiment drop, escalation score and the escalated flag. -/
def buildCluster (analyzedItems : List FeedbackItem) (category : Option String) :
    ClusterData :=
  let items := analyzedItems.filter (fun i => i.category == category)
  let avgSentiment : ℚ := (items.map (fun i => jsNumOr i.sentiment 0)).sum / items.length
  let avgUrgency : ℚ := (items.map (fun i => jsNumOr i.urgency 0)).sum / items.length
  let escalationScore :=
    calculateEscalationScore avgUrgency (volumeSpikeOf items.length)
      (sentimentDropOf avgSentiment)
  { id := assignCluster (jsTemplateStr category)
    summary := jsTemplateStr category ++ " issues (" ++ toString items.length ++ " reports)"
    category := category
    avg_sentiment := avgSentiment
    avg_urgency := avgUrgency
    count_today := items.length
    count_7d := items.length
    trend_score := trendScoreOf avgUrgency
    escalated := if escalationScore > 3.5 then 1 else 0 }

/-- The `update-clusters` workflow step (`src/index.ts` lines 661-711) as a
pure function: one cluster per distinct category value of the input, in
first-occurrence order. -/
def aggregate (analyzedItems : List FeedbackItem) : List ClusterData :=
  (jsSetDedup (analyzedItems.map (fun i => i.category))).map (buildCluster analyzedItems)

/-! ### Report builder (workflow step `generate-report`) -/

/-- The `generate-report` workflow step (`src/index.ts` lines 714-722) as a
pure function of the fresh id and timestamp it draws. -/
def buildReport (rid : String) (now : ℤ) (clusters : List ClusterData)
    (itemCount : ℕ) : ReportRecord :=
  let escalatedClusters := clusters.filter (fun c => c.escalated == 1)
  { id := rid
    created_at := now
    summary := "Daily Triage Report: " ++ toString itemCount ++
      " feedback items processed, " ++ toString clusters.length ++
      " clusters identified, " ++ toString escalatedClusters.length ++ " escalated."
    clusters := clusters
    escalatedClusters := escalatedClusters }

/-! ### Dashboard projector trend loop (`/api/dashboard`, lines 824-845) -/

/-- The persisted feedback columns the trend loop reads. -/
structure FeedbackRow where
  created_at : ℤ
  sentiment : Option ℚ
deriving DecidableEq

/-- One day in milliseconds (`dayMs` local, line 826). -/
def dayMs : ℤ := 86400000

/-- The `dayFeedback` filter of the trend loop (lines 833-835): bucket `i`
keeps the rows whose `created_at * 1000` lies in
`[now - (i+1)·dayMs, now - i·dayMs)`. -/
def dayFeedback (now : ℤ) (rows : List FeedbackRow) (i : ℕ) : List FeedbackRow :=
  rows.filter (fun f =>
    decide (f.created_at * 1000 ≥ now - ((i : ℤ) + 1) * dayMs) &&
    decide (f.created_at * 1000 < now - (i : ℤ) * dayMs))

/-- The loop indices `i = 6, 5, ..., 0` (line 830), oldest bucket first. -/
def trendIndices : List ℕ := [6, 5, 4, 3, 2, 1, 0]

/-- JS `Number(x.toFixed(2))`, modelled as rounding to two decimals. -/
def toFixed2 (q : ℚ) : ℚ := ((jsRound (q * 100) : ℤ) : ℚ) / 100

/-- The `sentimentTrend` array built by the loop (lines 837-843): the rounded
mean sentiment of the bucket when `dayFeedback` is non-empty, otherwise the
random fallback (abstracted as `randS i`, a value in `[-0.3, 0.1)`). -/
def sentimentTrendOf (now : ℤ) (rows : List FeedbackRow) (randS : ℕ → ℚ) : List ℚ :=
  trendIndices.map (fun i =>
    let df := dayFeedback now rows i
    if df.length > 0 then
      toFixed2 ((df.map (fun f => jsNumOr f.sentiment 0)).sum / df.length)
    else randS i)

/-- The `volumeTrend` array built by the loop (line 844): `df.length || randV i`
with the random fallback `randV i` an integer in `[5, 15)`. -/
def volumeTrendOf (now : ℤ) (rows : List FeedbackRow) (randV : ℕ → ℕ) : List ℕ :=
  trendIndices.map (fun i =>
    let df := dayFeedback now rows i
    if df.length > 0 then df.length else randV i)

/-! ### Concrete inputs used to instantiate the universally quantified
theorems -/

/-- The category enumeration of the data model (`spec` §3, and the prompt of
`analyzeWithAI`). -/
def categoryEnum : List String :=
  ["bug", "feature", "docs", "performance", "billing", "outage", "praise", "other"]

/-- A classified outage feedback item (the classification the heuristic gives
the template text "Full service outage right now"). -/
def sampleOutageItem : FeedbackItem :=
  { id := "f1"
    source := "forum"
    created_at := 1760227200000
    raw_text := "Full service outage right now"
    sentiment := some (-0.9)
    urgency := some 5
    category := some "outage"
    cluster_id := some "cluster-outage" }

/-- The cluster the `update-clusters` step produces from
`[sampleOutageItem]`. -/
def sampleOutageCluster : ClusterData :=
  { id := "cluster-outage"
    summary := "outage issues (1 reports)"
    category := some "outage"
    avg_sentiment := -0.9
    avg_urgency := 5
    count_today := 1
    count_7d := 1
    trend_score := 0.3
    escalated := 1 }

/-- Two classified feature-request items (a small, calm partition). -/
def demoFeatureItems : List FeedbackItem :=
  [{ id := "f2"
     source := "github"
     created_at := 1760227200000
     raw_text := "Please add support for Safari"
     sentiment := some 0.1
     urgency := some 2
     category := some "feature"
     cluster_id := some "cluster-feature" },
   { id := "f3"
     source := "discord"
     created_at := 1760227200000
     raw_text := "We need dark mode for our workflow"
     sentiment := some 0.1
     urgency := some 2
     category := some "feature"
     cluster_id := some "cluster-feature" }]

/-- A concrete "now" for the dashboard trend loop, in epoch milliseconds. -/
def demoNow : ℤ := 1760227200000

/-- A persisted feedback row written by the pipeline: `created_at` is epoch
milliseconds (`generateFeedbackItem` stores `Date.now() - ...`). -/
def demoRow : FeedbackRow := { created_at := 1760227199000, sentiment := some (-0.5) }

/-! ### General lemmas about the embedded operations -/

theorem nodup_foldl_dedupStep :
    ∀ (xs acc : List (Option String)), acc.Nodup →
      (xs.foldl dedupStep acc).Nodup := by
  intro xs
  induction xs with
  | nil => intro acc h; exact h
  | cons x xs ih =>
    intro acc h
    rw [List.foldl_cons]
    apply ih
    unfold dedupStep
    by_cases hx : x ∈ acc
    · simpa [hx] using h
    · rw [if_neg hx]
      refine h.append (List.nodup_singleton x) ?_
      intro a ha hax
      rw [List.mem_singleton] at hax
      exact hx (hax ▸ ha)

/-- JS `Set` spreading never produces duplicates. -/
theorem jsSetDedup_nodup (xs : List (Option String)) : (jsSetDedup xs).Nodup :=
  nodup_foldl_dedupStep xs [] List.nodup_nil

theorem subset_foldl_dedupStep :
    ∀ (xs acc : List (Option String)), acc ⊆ xs.foldl dedupStep acc := by
  intro xs
  induction xs with
  | nil => intro acc; exact fun a h => h
  | cons x xs ih =>
    intro acc
    rw [List.foldl_cons]
    refine fun a ha => ih (dedupStep acc x) ?_
    unfold dedupStep
    by_cases hx : x ∈ acc
    · simpa [hx] using ha
    · rw [if_neg hx]
      exact List.mem_append_left _ ha

theorem mem_foldl_dedupStep_of_mem :
    ∀ (xs acc : List (Option String)) (x : Option String), x ∈ xs →
      x ∈ xs.foldl dedupStep acc := by
  intro xs
  induction xs with
  | nil => intro acc x h; exact absurd h (List.not_mem_nil x)
  | cons a xs ih =>
    intro acc x h
    rw [List.foldl_cons]
    rcases List.mem_cons.mp h with h | h
    · subst h
      refine subset_foldl_dedupStep xs (dedupStep acc x) ?_
      unfold dedupStep
      by_cases hx : x ∈ acc
      · simp [hx]
      · rw [if_neg hx]
        exact List.mem_append_right _ (List.mem_singleton.mpr rfl)
    · exact ih _ x h

/-- Every element of the input survives into the JS `Set` spread. -/
theorem mem_jsSetDedup_of_mem {xs : List (Option String)} {x : Option String}
    (h : x ∈ xs) : x ∈ jsSetDedup xs :=
  mem_foldl_dedupStep_of_mem xs [] x h

theorem mem_of_mem_foldl_dedupStep :
    ∀ (xs acc : List (Option String)) (y : Option String),
      y ∈ xs.foldl dedupStep acc → y ∈ acc ∨ y ∈ xs := by
  intro xs
  induction xs with
  | nil => intro acc y h; exact Or.inl h
  | cons x xs ih =>
    intro acc y h
    rw [List.foldl_cons] at h
    rcases ih (dedupStep acc x) y h with h | h
    · unfold dedupStep at h
      by_cases hx : x ∈ acc
      · rw [if_pos hx] at h; exact Or.inl h
      · rw [if_neg hx] at h
        rcases List.mem_append.mp h with h | h
        · exact Or.inl h
        · exact Or.inr (List.mem_cons.mpr (Or.inl (List.mem_singleton.mp h)))
    · exact Or.inr (List.mem_cons.mpr (Or.inr h))

/-- The JS `Set` spread introduces no new elements. -/
theorem mem_of_mem_jsSetDedup {xs : List (Option String)} {y : Option String}
    (h : y ∈ jsSetDedup xs) : y ∈ xs := by
  rcases mem_of_mem_foldl_dedupStep xs [] y h with h | h
  · exact absurd h (List.not_mem_nil y)
  · exact h

/-- Partition counting: over a duplicate-free list of keys covering every
item's key, the per-key filter lengths sum to the number of items. -/
theorem sum_filter_length_eq_length {α : Type} [BEq α] [LawfulBEq α]
    (f : FeedbackItem → α) :
    ∀ (L : List α) (items : List FeedbackItem), L.Nodup →
      (∀ i ∈ items, f i ∈ L) →
      (L.map (fun c => (items.filter (fun i => f i == c)).length)).sum =
        items.length := by
  intro L
  induction L with
  | nil =>
    intro items _ hcov
    cases items with
    | nil => simp
    | cons i items => exact absurd (hcov i (List.mem_cons_self i items)) (List.not_mem_nil _)
  | cons c L ih =>
    intro items hnd hcov
    rw [List.map_cons, List.sum_cons]
    have hrest : ∀ c' ∈ L, items.filter (fun i => f i == c') =
        (items.filter (fun i => !(f i == c))).filter (fun i => f i == c') := by
      intro c' hc'
      have hne : c' ≠ c := fun h => (List.nodup_cons.mp hnd).1 (h ▸ hc')
      rw [List.filter_filter]
      refine (List.filter_congr ?_).symm
      intro i _
      by_cases hfi : f i = c'
      · simp [hfi, hne]
      · simp [hfi]
    have hmap : L.map (fun c' => (items.filter (fun i => f i == c')).length) =
        L.map (fun c' =>
          ((items.filter (fun i => !(f i == c))).filter (fun i => f i == c')).length) := by
      apply List.map_congr_left
      intro c' hc'
      rw [hrest c' hc']
    rw [hmap, ih _ (List.nodup_cons.mp hnd).2 ?_]
    · have hsplit := List.length_eq_length_filter_add (l := items) (fun i => f i == c)
      omega
    · intro i hi
      have hmem := List.mem_of_mem_filter hi
      have hprop := List.of_mem_filter hi
      have hne : f i ≠ c := by simpa using hprop
      rcases List.mem_cons.mp (hcov i hmem) with h | h
      · exact absurd h hne
      · exact h

theorem buildCluster_category (items : List FeedbackItem) (c : Option String) :
    (buildCluster items c).category = c := rfl

theorem buildCluster_id (items : List FeedbackItem) (c : Option String) :
    (buildCluster items c).id = assignCluster (jsTemplateStr c) := rfl

theorem buildCluster_count_today (items : List FeedbackItem) (c : Option String) :
    (buildCluster items c).count_today =
      (items.filter (fun i => i.category == c)).length := rfl

theorem buildCluster_avg_sentiment (items : List FeedbackItem) (c : Option String) :
    (buildCluster items c).avg_sentiment =
      ((items.filter (fun i => i.category == c)).map (fun i => jsNumOr i.sentiment 0)).sum /
        (items.filter (fun i => i.category == c)).length := rfl

theorem buildCluster_avg_urgency (items : List FeedbackItem) (c : Option String) :
    (buildCluster items c).avg_urgency =
      ((items.filter (fun i => i.category == c)).map (fun i => jsNumOr i.urgency 0)).sum /
        (items.filter (fun i => i.category == c)).length := rfl

theorem buildCluster_escalated (items : List FeedbackItem) (c : Option String) :
    (buildCluster items c).escalated =
      if calculateEscalationScore (buildCluster items c).avg_urgency
          (volumeSpikeOf (buildCluster items c).count_today)
          (sentimentDropOf (buildCluster items c).avg_sentiment) > 3.5
      then 1 else 0 := rfl

/-- The heuristic's category branch only ever produces the enumerated
categories. -/
theorem heuristicCategory_mem_enum (lower : String) :
    heuristicCategory lower ∈ categoryEnum := by
  unfold heuristicCategory
  split_ifs <;> decide

/-! ### Claim theorems -/

/-- Claim C1: for every cluster partition the escalation score equals
`0.5·avg_urgency + 0.3·volume_spike + 0.2·sentiment_drop`; the score is
monotonically non-decreasing in `avg_urgency` for fixed volume spike and
sentiment drop; and every cluster produced by the `update-clusters` step has
`escalated = 1` iff its escalation score strictly exceeds `3.5`. -/
theorem claim_C1 :
    (∀ u v s : ℚ, calculateEscalationScore u v s = 0.5 * u + 0.3 * v + 0.2 * s) ∧
    (∀ u₁ u₂ v s : ℚ, u₁ ≤ u₂ →
      calculateEscalationScore u₁ v s ≤ calculateEscalationScore u₂ v s) ∧
    (∀ (analyzedItems : List FeedbackItem), ∀ cl ∈ aggregate analyzedItems,
      (cl.escalated = 1 ↔
        calculateEscalationScore cl.avg_urgency (volumeSpikeOf cl.count_today)
          (sentimentDropOf cl.avg_sentiment) > 3.5)) := by
  refine ⟨fun u v s => rfl, fun u₁ u₂ v s h => ?_, ?_⟩
  · unfold calculateEscalationScore
    have : (0.5 : ℚ) * u₁ ≤ 0.5 * u₂ := by nlinarith
    linarith
  · intro analyzedItems cl hcl
    rcases List.mem_map.mp hcl with ⟨c, hc, rfl⟩
    rw [buildCluster_escalated]
    constructor
    · intro h1
      by_contra hscore
      rw [if_neg hscore] at h1
      exact absurd h1 (by decide)
    · intro hscore
      rw [if_pos hscore]

/-- Claim C1 witness: the monotonicity hypothesis and the cluster-membership
hypothesis of `claim_C1` discharged at concrete inputs: urgencies `3 ≤ 4`, and
the cluster built from the single classified outage item. -/
theorem claim_C1_witness :
    calculateEscalationScore 3 1 0 ≤ calculateEscalationScore 4 1 0 ∧
    (sampleOutageCluster.escalated = 1 ↔
      calculateEscalationScore sampleOutageCluster.avg_urgency
        (volumeSpikeOf sampleOutageCluster.count_today)
        (sentimentDropOf sampleOutageCluster.avg_sentiment) > 3.5) := by
  constructor
  · exact claim_C1.2.1 3 4 1 0 (by norm_num)
  · refine claim_C1.2.2 [sampleOutageItem] sampleOutageCluster ?_
    have h : aggregate [sampleOutageItem] = [sampleOutageCluster] := by
      show [buildCluster [sampleOutageItem] (some "outage")] = [sampleOutageCluster]
      congr 1
      unfold buildCluster sampleOutageItem sampleOutageCluster
      norm_num [assignCluster, jsTemplateStr, jsNumOr, trendScoreOf,
        calculateEscalationScore, volumeSpikeOf, sentimentDropOf]
      exact ⟨by decide, by decide⟩
    rw [h]
    exact List.mem_singleton.mpr rfl

/-- Claim C2: when every input item is classified, the `update-clusters` step
produces at most one cluster per category value (its category list has no
duplicates), the sum of `count_today` over the clusters equals the number of
input items with non-null category, and every cluster's category occurs in the
input with `id = "cluster-" ++ category`. -/
theorem claim_C2 (analyzedItems : List FeedbackItem)
    (hclassified : ∀ i ∈ analyzedItems, i.category.isSome) :
    ((aggregate analyzedItems).map ClusterData.category).Nodup ∧
    ((aggregate analyzedItems).map ClusterData.count_today).sum =
      (analyzedItems.filter (fun i => i.category.isSome)).length ∧
    (∀ cl ∈ aggregate analyzedItems,
      cl.category ∈ analyzedItems.map FeedbackItem.category ∧
      ∃ c, cl.category = some c ∧ cl.id = "cluster-" ++ c) := by
  refine ⟨?_, ?_, ?_⟩
  · have h : (aggregate analyzedItems).map ClusterData.category =
        jsSetDedup (analyzedItems.map (fun i => i.category)) := by
      unfold aggregate
      rw [List.map_map]
      exact List.map_id'' (fun x => rfl) _
    rw [h]
    exact jsSetDedup_nodup _
  · unfold aggregate
    rw [List.map_map]
    have hsum := sum_filter_length_eq_length (fun i => i.category)
      (jsSetDedup (analyzedItems.map (fun i => i.category))) analyzedItems
      (jsSetDedup_nodup _)
      (fun i hi => mem_jsSetDedup_of_mem (List.mem_map_of_mem _ hi))
    have hfull : analyzedItems.filter (fun i => i.category.isSome) = analyzedItems :=
      List.filter_eq_self.mpr hclassified
    rw [hfull]
    exact hsum
  · intro cl hcl
    rcases List.mem_map.mp hcl with ⟨c, hc, rfl⟩
    rw [buildCluster_category, buildCluster_id]
    have hmemxs : c ∈ analyzedItems.map (fun i => i.category) :=
      mem_of_mem_jsSetDedup hc
    refine ⟨hmemxs, ?_⟩
    rcases List.mem_map.mp hmemxs with ⟨i, hi, hci⟩
    have hsome := hclassified i hi
    rw [← hci] at *
    rcases Option.isSome_iff_exists.mp hsome with ⟨s, hs⟩
    exact ⟨s, by rw [hs], by rw [hs]; rfl⟩

/-- Claim C2 witness: `claim_C2` instantiated at the concrete fully-classified
two-item feature list. -/
theorem claim_C2_witness :
    ((aggregate demoFeatureItems).map ClusterData.category).Nodup ∧
    ((aggregate demoFeatureItems).map ClusterData.count_today).sum =
      (demoFeatureItems.filter (fun i => i.category.isSome)).length := by
  have h := claim_C2 demoFeatureItems (by decide)
  exact ⟨h.1, h.2.1⟩

/-- Claim C3 counterexample: a successfully parsed object with ALL fields
missing does not fall back to the heuristic — `analyzeWithAI` returns the
clamped defaults (category "other"), while the heuristic classifies the same
text as praise.  So "missing fields" is not among the conditions that trigger
the heuristic fallback. -/
theorem claim_C3_cex :
    analyzeWithAI (.parsed {}) "Love the new dashboard!" ≠
      heuristicAnalysis "Love the new dashboard!" := by
  intro h
  have hcat : (analyzeWithAI (.parsed {}) "Love the new dashboard!").category =
      (heuristicAnalysis "Love the new dashboard!").category := by rw [h]
  revert hcat
  decide

/-- Claim C3 amended: when the inference call throws, when the response
contains no JSON object, or when JSON decoding of the extracted substring
throws, the classifier returns exactly the result of the heuristic strategy
on that text (and, being a total function, never propagates an error);
missing or non-numeric fields inside a successfully parsed object are instead
defaulted field-by-field, not heuristically re-classified. -/
theorem claim_C3_amended (text : String) :
    analyzeWithAI .failure text = heuristicAnalysis text ∧
    analyzeWithAI .noJsonObject text = heuristicAnalysis text ∧
    analyzeWithAI .jsonDecodeError text = heuristicAnalysis text :=
  ⟨rfl, rfl, rfl⟩

/-- Claim C3 amended witness: `claim_C3_amended` applied at a concrete text. -/
theorem claim_C3_amended_witness :
    analyzeWithAI .failure "Site is completely down!" =
      heuristicAnalysis "Site is completely down!" :=
  (claim_C3_amended "Site is completely down!").1

/-- Claim C4: for every value the external classifier proposes, the returned
sentiment lies in `[-1, 1]` and the returned urgency is an integer in `[1, 5]`;
proposed urgency `0` yields `3` (it is falsy, so the default applies) and `12`
yields `5`; proposed sentiment `-5` yields `-1` and `2` yields `1`; missing
(or non-numeric, which `Number(·)` also maps to the default) values give
sentiment `0` and urgency `3`. -/
theorem claim_C4 :
    (∀ (r : AIResponse) (text : String),
      -1 ≤ (analyzeWithAI (.parsed r) text).sentiment ∧
      (analyzeWithAI (.parsed r) text).sentiment ≤ 1 ∧
      ∃ n : ℤ, (analyzeWithAI (.parsed r) text).urgency = (n : ℚ) ∧ 1 ≤ n ∧ n ≤ 5) ∧
    (∀ text : String,
      (analyzeWithAI (.parsed { urgency := some 0 }) text).urgency = 3 ∧
      (analyzeWithAI (.parsed { urgency := some 12 }) text).urgency = 5 ∧
      (analyzeWithAI (.parsed { sentiment := some (-5) }) text).sentiment = -1 ∧
      (analyzeWithAI (.parsed { sentiment := some 2 }) text).sentiment = 1 ∧
      (analyzeWithAI (.parsed {}) text).sentiment = 0 ∧
      (analyzeWithAI (.parsed {}) text).urgency = 3) := by
  constructor
  · intro r text
    refine ⟨le_max_left _ _, max_le (by norm_num) (min_le_left _ _), ?_⟩
    exact ⟨max 1 (min 5 (jsRound (jsNumOr r.urgency 3))), rfl, le_max_left _ _,
      max_le (by norm_num) (min_le_left _ _)⟩
  · intro text
    refine ⟨?_, ?_, ?_, ?_, ?_, ?_⟩ <;>
      norm_num [analyzeWithAI, jsNumOr, jsRound]

/-- Claim C5 counterexample: a parsed response proposing the out-of-enum
category "banana" is passed through verbatim by `analyzeWithAI` — it neither
fails closed nor falls back to the heuristic, so the returned category can lie
outside the fixed enumerated set. -/
theorem claim_C5_cex :
    (analyzeWithAI (.parsed { category := some "banana" }) "hello").category = "banana" ∧
    "banana" ∉ categoryEnum ∧
    analyzeWithAI (.parsed { category := some "banana" }) "hello" ≠
      heuristicAnalysis "hello" := by
  refine ⟨by decide, by decide, ?_⟩
  intro h
  have hcat : (analyzeWithAI (.parsed { category := some "banana" }) "hello").category =
      (heuristicAnalysis "hello").category := by rw [h]
  revert hcat
  decide

/-- Claim C5 amended: the heuristic strategy always returns a category from
the fixed enumerated set; the external strategy substitutes "other" for a
missing (or empty, hence falsy) category but passes any non-empty proposed
string through unvalidated, so out-of-enum categories are not rejected. -/
theorem claim_C5_amended :
    (∀ text : String, (heuristicAnalysis text).category ∈ categoryEnum) ∧
    (∀ (r : AIResponse) (text : String), r.category = none →
      (analyzeWithAI (.parsed r) text).category = "other") ∧
    (∀ (r : AIResponse) (text : String) (c : String), r.category = some c → c ≠ "" →
      (analyzeWithAI (.parsed r) text).category = c) := by
  refine ⟨?_, ?_, ?_⟩
  · intro text
    exact heuristicCategory_mem_enum (strLower text)
  · intro r text h
    simp [analyzeWithAI, jsStrOr, h]
  · intro r text c h hne
    simp [analyzeWithAI, jsStrOr, h, hne]

/-- Claim C5 amended witness: `claim_C5_amended` instantiated at concrete
inputs, discharging the missing-category and the non-empty-category
hypotheses. -/
theorem claim_C5_amended_witness :
    (heuristicAnalysis "hello").category ∈ categoryEnum ∧
    (analyzeWithAI (.parsed {}) "x").category = "other" ∧
    (analyzeWithAI (.parsed { category := some "bug" }) "x").category = "bug" :=
  ⟨claim_C5_amended.1 "hello", claim_C5_amended.2.1 {} "x" rfl,
   claim_C5_amended.2.2 { category := some "bug" } "x" "bug" rfl (by decide)⟩

/-- Claim C6: the heuristic classifier applied to the exact text
"Site is completely down!" returns category "outage" (first matching branch in
the fixed evaluation order), sentiment `-0.9` (the outage/down/urgent keyword
rule) and urgency `5`. -/
theorem claim_C6 :
    (heuristicAnalysis "Site is completely down!").category = "outage" ∧
    (heuristicAnalysis "Site is completely down!").sentiment = -0.9 ∧
    (heuristicAnalysis "Site is completely down!").urgency = 5 := by
  refine ⟨by decide, ?_, ?_⟩
  · show heuristicSentiment (strLower "Site is completely down!") = -0.9
    unfold heuristicSentiment
    rw [if_neg (by decide), if_neg (by decide), if_pos (by decide)]
  · show heuristicUrgency (strLower "Site is completely down!") = 5
    unfold heuristicUrgency
    rw [if_pos (by decide)]

/-- Claim C7: for every cluster list and item count, the produced report's
summary has the exact shape "Daily Triage Report: `itemCount` feedback items
processed, `clusters.length` clusters identified, `escalatedCount` escalated."
with the escalated count equal to the number of clusters with `escalated = 1`,
and `escalatedClusters` holds exactly the clusters with `escalated = 1`. -/
theorem claim_C7 (rid : String) (now : ℤ) (clusters : List ClusterData) (itemCount : ℕ) :
    (buildReport rid now clusters itemCount).summary =
      "Daily Triage Report: " ++ toString itemCount ++ " feedback items processed, " ++
        toString clusters.length ++ " clusters identified, " ++
        toString (clusters.countP (fun c => c.escalated == 1)) ++ " escalated." ∧
    (∀ c : ClusterData,
      c ∈ (buildReport rid now clusters itemCount).escalatedClusters ↔
        (c ∈ clusters ∧ c.escalated = 1)) := by
  constructor
  · unfold buildReport
    rw [List.countP_eq_length_filter]
  · intro c
    unfold buildReport
    simp [List.mem_filter]

/-- Claim C8: aggregating the empty feedback list yields the empty cluster
list, and the report built from that run reads 0 items, 0 clusters, 0
escalated. -/
theorem claim_C8 :
    aggregate [] = [] ∧
    (buildReport "report-0" 1760227200000 (aggregate []) 0).summary =
      "Daily Triage Report: 0 feedback items processed, 0 clusters identified, 0 escalated." :=
  ⟨rfl, by decide⟩

/-- Claim C9 evidence (code bug): a feedback row written by the pipeline
carries an epoch-milliseconds `created_at` (here one second before `now`), so
it really falls inside the newest trailing day bucket `[now - dayMs, now)`;
yet the trend loop compares `created_at * 1000` against millisecond bucket
bounds, so the row lands in no bucket at all, every `dayFeedback` is empty,
and both trends consist entirely of the random fallback entries — the
fallback fires even though the real day bucket is non-empty. -/
theorem claim_C9_evidence :
    (demoNow - 1 * dayMs ≤ demoRow.created_at ∧ demoRow.created_at < demoNow - 0 * dayMs) ∧
    trendIndices.all (fun i => (dayFeedback demoNow [demoRow] i).isEmpty) = true ∧
    sentimentTrendOf demoNow [demoRow] (fun _ => 0) = [0, 0, 0, 0, 0, 0, 0] ∧
    volumeTrendOf demoNow [demoRow] (fun _ => 7) = [7, 7, 7, 7, 7, 7, 7] := by
  refine ⟨by decide, by decide, ?_, by decide⟩
  decide

/-- Claim C10: a partition with at most 2 member items, each of urgency at
most 5, and non-negative average sentiment yields volume spike 1, sentiment
drop 0, an escalation score of at most `2.8 = 0.5·5 + 0.3·1 + 0.2·0`, and is
therefore never escalated. -/
theorem claim_C10 (analyzedItems : List FeedbackItem) (category : Option String)
    (hsize : (analyzedItems.filter (fun i => i.category == category)).length ≤ 2)
    (hurg : ∀ i ∈ analyzedItems.filter (fun i => i.category == category),
      jsNumOr i.urgency 0 ≤ 5)
    (hsent : 0 ≤ (buildCluster analyzedItems category).avg_sentiment) :
    volumeSpikeOf (buildCluster analyzedItems category).count_today = 1 ∧
    sentimentDropOf (buildCluster analyzedItems category).avg_sentiment = 0 ∧
    calculateEscalationScore (buildCluster analyzedItems category).avg_urgency
      (volumeSpikeOf (buildCluster analyzedItems category).count_today)
      (sentimentDropOf (buildCluster analyzedItems category).avg_sentiment) ≤ 2.8 ∧
    (buildCluster analyzedItems category).escalated = 0 := by
  have hvol : volumeSpikeOf (buildCluster analyzedItems category).count_today = 1 := by
    rw [buildCluster_count_today]
    unfold volumeSpikeOf
    rw [if_neg (by omega), if_neg (by omega)]
  have hdrop : sentimentDropOf (buildCluster analyzedItems category).avg_sentiment = 0 := by
    unfold sentimentDropOf
    rw [if_neg (by norm_num; linarith), if_neg (by linarith)]
  have havg : (buildCluster analyzedItems category).avg_urgency ≤ 5 := by
    rw [buildCluster_avg_urgency]
    rcases Nat.eq_zero_or_pos
        (analyzedItems.filter (fun i => i.category == category)).length with h0 | hpos
    · rw [h0]
      norm_num
    · have hsum : ((analyzedItems.filter (fun i => i.category == category)).map
          (fun i => jsNumOr i.urgency 0)).sum ≤
            ((analyzedItems.filter (fun i => i.category == category)).map
              (fun i => jsNumOr i.urgency 0)).length • (5 : ℚ) := by
        refine List.sum_le_card_nsmul _ _ ?_
        intro x hx
        rcases List.mem_map.mp hx with ⟨i, hi, rfl⟩
        exact hurg i hi
      rw [List.length_map, nsmul_eq_mul] at hsum
      rw [div_le_iff₀ (by exact_mod_cast hpos)]
      linarith
  have hscore : calculateEscalationScore (buildCluster analyzedItems category).avg_urgency
      (volumeSpikeOf (buildCluster analyzedItems category).count_today)
      (sentimentDropOf (buildCluster analyzedItems category).avg_sentiment) ≤ 2.8 := by
    rw [hvol, hdrop]
    unfold calculateEscalationScore
    linarith
  refine ⟨hvol, hdrop, hscore, ?_⟩
  rw [buildCluster_escalated, if_neg (by linarith)]

/-- Claim C10 witness: `claim_C10` instantiated at the concrete two-item
feature partition (2 members, urgency 2 each, average sentiment 0.1). -/
theorem claim_C10_witness :
    volumeSpikeOf (buildCluster demoFeatureItems (some "feature")).count_today = 1 ∧
    sentimentDropOf (buildCluster demoFeatureItems (some "feature")).avg_sentiment = 0 ∧
    calculateEscalationScore (buildCluster demoFeatureItems (some "feature")).avg_urgency
      (volumeSpikeOf (buildCluster demoFeatureItems (some "feature")).count_today)
      (sentimentDropOf (buildCluster demoFeatureItems (some "feature")).avg_sentiment) ≤ 2.8 ∧
    (buildCluster demoFeatureItems (some "feature")).escalated = 0 := by
  refine claim_C10 demoFeatureItems (some "feature") (by decide) ?_ ?_
  · intro i hi
    have hmem := List.mem_of_mem_filter hi
    simp only [demoFeatureItems, List.mem_cons, List.not_mem_nil, or_false] at hmem
    rcases hmem with rfl | rfl <;> norm_num [jsNumOr]
  · rw [buildCluster_avg_sentiment,
      show demoFeatureItems.filter (fun i => i.category == some "feature") =
        demoFeatureItems from by simp [demoFeatureItems]]
    norm_num [demoFeatureItems, jsNumOr]
